import Mathlib

/-!
Shallow embedding of the POS/accounting model code, the FastAPI API-key
dependency, and the Todo UI state logic of this repository.

Monetary amounts (SQLite `REAL` columns and JavaScript numbers) are modelled
as exact rationals `ℚ`; SQLite tables are modelled as Lean lists of row
structures, an SQL `UPDATE ... WHERE` as a `List.map` that rewrites every
matching row, and `better-sqlite3` transactions as `Except`-valued functions
whose error case leaves the database value untouched (rollback).
Nondeterministic inputs of the code (`uuidv4()`, generated entry numbers,
`datetime('now')`) are passed in as explicit parameters.
-/

/-! ## Database rows (electron/database/schema.sql) -/

/-- A row of the `accounts` table.  Per the schema, `account_type` is
constrained by `CHECK(account_type IN ('asset','liability','equity','income','expense'))`
and `id` is the primary key.  Columns not read by any modelled operation
(`parent_id`, `description`, `is_system`, `created_at`) are omitted. -/
structure Account where
  id : String
  code : String
  name : String
  accountType : String
  isActive : Int
  currentBalance : ℚ
deriving DecidableEq

/-- A row of the `journal_entries` table (`is_posted INTEGER DEFAULT 0`,
modelled as `Bool`; `created_at` omitted). -/
structure JournalEntryRow where
  id : String
  entryNumber : String
  entryDate : String
  description : String
  referenceType : String
  referenceId : String
  isPosted : Bool
  userId : String
deriving DecidableEq

/-- A row of the `journal_entry_lines` table. -/
structure JournalLineRow where
  id : String
  journalEntryId : String
  accountId : String
  debit : ℚ
  credit : ℚ
  description : Option String
deriving DecidableEq

/-- A row of the `customers` table (only the columns the modelled operations
read or write). -/
structure Customer where
  id : String
  name : String
  email : String
  phone : String
  currentBalance : ℚ
deriving DecidableEq

/-- A row of the `invoices` table. -/
structure Invoice where
  id : String
  invoiceNumber : String
  customerId : String
  saleId : Option String
  invoiceDate : String
  dueDate : String
  subtotal : ℚ
  taxAmount : ℚ
  discountAmount : ℚ
  totalAmount : ℚ
  amountPaid : ℚ
  status : String
  notes : Option String
  userId : String
  updatedAt : String
deriving DecidableEq

/-- A row of the `payments` table. -/
structure PaymentRow where
  id : String
  paymentNumber : String
  paymentType : String
  entityType : String
  entityId : String
  invoiceId : String
  paymentDate : String
  amount : ℚ
  paymentMethod : String
  referenceNumber : Option String
  notes : Option String
  userId : String
deriving DecidableEq

/-- A row of the `products` table (only the columns read by the modelled
operations: `cost_price` in the sale-item insert, `current_stock` in
`updateStock`). -/
structure Product where
  id : String
  sku : String
  name : String
  costPrice : ℚ
  currentStock : ℚ
deriving DecidableEq

/-- A row of the `inventory_transactions` table. -/
structure InventoryTransaction where
  id : String
  productId : String
  transactionType : String
  quantity : ℚ
  userId : String
  notes : Option String
deriving DecidableEq

/-- A row of the `sales` table. -/
structure SaleRow where
  id : String
  invoiceNumber : String
  customerId : Option String
  saleType : String
  subtotal : ℚ
  taxAmount : ℚ
  discountAmount : ℚ
  totalAmount : ℚ
  amountPaid : ℚ
  changeAmount : ℚ
  paymentMethod : String
  notes : Option String
  userId : String
deriving DecidableEq

/-- A row of the `sale_items` table. -/
structure SaleItemRow where
  id : String
  saleId : String
  productId : String
  quantity : ℚ
  unitPrice : ℚ
  costPrice : ℚ
  taxRate : ℚ
  discountPercent : ℚ
  total : ℚ
deriving DecidableEq

/-- A row of the `sale_payments` table. -/
structure SalePaymentRow where
  id : String
  saleId : String
  paymentMethod : String
  amount : ℚ
  referenceNumber : Option String
deriving DecidableEq

/-- The SQLite database state touched by the modelled operations. -/
structure DB where
  accounts : List Account
  journalEntries : List JournalEntryRow
  journalEntryLines : List JournalLineRow
  customers : List Customer
  invoices : List Invoice
  payments : List PaymentRow
  products : List Product
  inventoryTransactions : List InventoryTransaction
  sales : List SaleRow
  saleItems : List SaleItemRow
  salePayments : List SalePaymentRow
deriving DecidableEq

/-- `better-sqlite3` transaction semantics: a thrown error rolls the
database back to its pre-transaction state. -/
def runTransaction (db : DB) (r : Except String DB) : DB :=
  match r with
  | .ok db2 => db2
  | .error _ => db

/-! ## JournalEntryModel (electron/database/models/journalEntry.js) -/

/-- One element of `data.lines` as passed to `JournalEntryModel.create`;
`debit`/`credit`/`description` may be absent in the JavaScript object
(`line.debit || 0` supplies the default). -/
structure JournalLineInput where
  accountId : String
  debit : Option ℚ
  credit : Option ℚ
  description : Option String
deriving DecidableEq

/-- `line.debit || 0`. -/
def lineDebit (l : JournalLineInput) : ℚ := l.debit.getD 0

/-- `line.credit || 0`. -/
def lineCredit (l : JournalLineInput) : ℚ := l.credit.getD 0

/-- `data.lines.reduce((sum, line) => sum + (line.debit || 0), 0)`. -/
def totalDebit (lines : List JournalLineInput) : ℚ :=
  lines.foldl (fun sum l => sum + lineDebit l) 0

/-- `data.lines.reduce((sum, line) => sum + (line.credit || 0), 0)`. -/
def totalCredit (lines : List JournalLineInput) : ℚ :=
  lines.foldl (fun sum l => sum + lineCredit l) 0

/-- The `data` argument of `JournalEntryModel.create`. -/
structure CreateEntryData where
  entryDate : String
  description : String
  referenceType : String
  referenceId : String
  userId : String
  lines : List JournalLineInput
deriving DecidableEq

/-- The identifiers `JournalEntryModel.create` generates at run time:
`uuidv4()` for the entry, `generateEntryNumber()`, and one `uuidv4()` per
inserted line (indexed by position). -/
structure EntryFreshIds where
  entryId : String
  entryNumber : String
  lineIds : Nat → String

/-- `JournalEntryModel.create`: validates that total debit and total credit
differ by at most `0.01`, then inserts one `journal_entries` row
(`is_posted` takes its schema default `0`) and one `journal_entry_lines`
row per input line.  A validation failure throws, which aborts the enclosing
transaction. -/
def JournalEntryModel.create (ids : EntryFreshIds) (db : DB) (data : CreateEntryData) :
    Except String DB :=
  if |totalDebit data.lines - totalCredit data.lines| > 1/100 then
    .error "Debits and credits must be equal"
  else
    .ok { db with
      journalEntries := db.journalEntries ++
        [⟨ids.entryId, ids.entryNumber, data.entryDate, data.description,
          data.referenceType, data.referenceId, false, data.userId⟩],
      journalEntryLines := db.journalEntryLines ++
        data.lines.enum.map (fun p =>
          ⟨ids.lineIds p.1, ids.entryId, p.2.accountId, lineDebit p.2, lineCredit p.2,
           p.2.description⟩) }

/-- A row of the line query in `JournalEntryModel.findById`:
`SELECT jel.*, a.code AS account_code, a.name AS account_name FROM
journal_entry_lines jel JOIN accounts a ON jel.account_id = a.id`. -/
structure JoinedLine where
  line : JournalLineRow
  accountCode : String
  accountName : String
deriving DecidableEq

/-- The joined lines of one journal entry (inner join: a line whose account
id matches no `accounts` row produces no result row). -/
def entryJoinedLines (db : DB) (id : String) : List JoinedLine :=
  ((db.journalEntryLines.filter (fun l => l.journalEntryId == id)).map (fun l =>
    (db.accounts.filter (fun a => a.id == l.accountId)).map (fun a =>
      ⟨l, a.code, a.name⟩))).flatten

/-- `JournalEntryModel.findById`: the entry row (first match) together with
its joined lines, or `none`. -/
def JournalEntryModel.findById (db : DB) (id : String) :
    Option (JournalEntryRow × List JoinedLine) :=
  (db.journalEntries.find? (fun e => e.id == id)).map (fun e => (e, entryJoinedLines db id))

/-- `SELECT account_type FROM accounts WHERE id = ?` (`.get` returns the
first matching row or `undefined`). -/
def accountTypeOf (db : DB) (accountId : String) : Option String :=
  (db.accounts.find? (fun a => a.id == accountId)).map (fun a => a.accountType)

/-- `UPDATE accounts SET current_balance = current_balance + ? WHERE id = ?`. -/
def updateBalance (db : DB) (accountId : String) (amount : ℚ) : DB :=
  { db with accounts := db.accounts.map (fun a =>
      if a.id == accountId then { a with currentBalance := a.currentBalance + amount } else a) }

/-- `['asset','expense'].includes t` — debit-normal account types. -/
def isDebitNormal (t : String) : Bool := t == "asset" || t == "expense"

/-- `['liability','equity','income'].includes t` — credit-normal account types. -/
def isCreditNormal (t : String) : Bool := t == "liability" || t == "equity" || t == "income"

/-- The body of the balance-update loop in `JournalEntryModel.post` for one
line: classify the line account (debit-normal for asset/expense,
credit-normal otherwise) and add the signed amount to its balance.  When the
account lookup returns `undefined`, reading `.account_type` throws a
`TypeError`. -/
def postLine (db : DB) (l : JournalLineRow) : Except String DB :=
  match accountTypeOf db l.accountId with
  | none => .error "TypeError: account is undefined"
  | some t =>
    let amount := if isDebitNormal t then l.debit - l.credit
                  else l.credit - l.debit
    .ok (updateBalance db l.accountId amount)

/-- `UPDATE journal_entries SET is_posted = 1 WHERE id = ?`. -/
def markPosted (db : DB) (id : String) : DB :=
  { db with journalEntries := db.journalEntries.map (fun e =>
      if e.id == id then { e with isPosted := true } else e) }

/-- `JournalEntryModel.post`: loads the entry (throwing when it is absent or
already posted), applies every line to the account balances, then marks the
entry posted.  Run inside a transaction by the caller. -/
def JournalEntryModel.post (db : DB) (id : String) : Except String DB := do
  match JournalEntryModel.findById db id with
  | none => .error "Journal entry not found"
  | some (e, lines) =>
    if e.isPosted then .error "Entry already posted"
    else do
      let db1 ← lines.foldlM (fun d jl => postLine d jl.line) db
      .ok (markPosted db1 id)

/-! ## FinancialReports (electron/database/models/financialReports.js) -/

/-- A result row of `FinancialReports.getTrialBalance`. -/
structure TrialBalanceRow where
  code : String
  name : String
  accountType : String
  debitBalance : ℚ
  creditBalance : ℚ
deriving DecidableEq

/-- The SELECT list of the trial-balance query: the two CASE expressions. -/
def trialBalanceRow (a : Account) : TrialBalanceRow :=
  ⟨a.code, a.name, a.accountType,
   if isDebitNormal a.accountType then a.currentBalance else 0,
   if isCreditNormal a.accountType then a.currentBalance else 0⟩

/-- `FinancialReports.getTrialBalance`: all active accounts with a nonzero
balance, one row each, ordered by account code (`WHERE a.current_balance != 0
AND a.is_active = 1 ORDER BY a.code`). -/
def FinancialReports.getTrialBalance (db : DB) : List TrialBalanceRow :=
  List.insertionSort (fun r1 r2 => r1.code ≤ r2.code)
    ((db.accounts.filter (fun a => a.currentBalance != 0 && a.isActive == 1)).map
      trialBalanceRow)

/-! ## InvoiceModel (electron/database/models/invoice.js) -/

/-- The result of `Settings.getAccountMappings()`: the configured account ids
used when building automatic journal entries. -/
structure AccountMappings where
  cashOnHand : String
  bankAccount : String
  accountsReceivable : String
  salesRevenue : String
  salesTaxPayable : String

/-- The `paymentData` argument of `InvoiceModel.recordPayment`. -/
structure PaymentData where
  amount : ℚ
  paymentDate : String
  paymentMethod : String
  referenceNumber : Option String
  notes : Option String
  userId : String
deriving DecidableEq

/-- The run-time identifiers `InvoiceModel.recordPayment` generates:
`uuidv4()` for the payment row, `generatePaymentNumber()`, and the ids of
the journal entry it creates. -/
structure PaymentFreshIds where
  paymentId : String
  paymentNumber : String
  entryIds : EntryFreshIds

/-- `InvoiceModel.findById`: the invoice row joined with its customer
(`JOIN customers c ON i.customer_id = c.id`, so an invoice whose customer is
missing yields no row) plus the attached payment rows. -/
def InvoiceModel.findById (db : DB) (id : String) :
    Option (Invoice × Customer × List PaymentRow) :=
  match db.invoices.find? (fun i => i.id == id) with
  | none => none
  | some inv =>
    (db.customers.find? (fun c => c.id == inv.customerId)).map (fun c =>
      (inv, c, db.payments.filter (fun p => p.invoiceId == id)))

/-- `InvoiceModel.recordPayment`: rejects a payment above the remaining
balance, otherwise updates the invoice (`amount_paid`, `status`,
`updated_at`), decreases the customer balance, inserts a `payments` row and
creates the cash/receivable journal entry. -/
def InvoiceModel.recordPayment (ids : PaymentFreshIds) (mappings : AccountMappings)
    (now : String) (db : DB) (invoiceId : String) (pd : PaymentData) : Except String DB :=
  match InvoiceModel.findById db invoiceId with
  | none => .error "Invoice not found"
  | some (invoice, _, _) =>
    let remaining := invoice.totalAmount - invoice.amountPaid
    if pd.amount > remaining then .error "Payment amount exceeds remaining balance"
    else
      let newAmountPaid := invoice.amountPaid + pd.amount
      let newStatus := if newAmountPaid ≥ invoice.totalAmount then "paid" else "partial"
      let db1 : DB := { db with invoices := db.invoices.map (fun i =>
        if i.id == invoiceId then
          { i with amountPaid := newAmountPaid, status := newStatus, updatedAt := now }
        else i) }
      let db2 : DB := { db1 with customers := db1.customers.map (fun c =>
        if c.id == invoice.customerId then
          { c with currentBalance := c.currentBalance - pd.amount }
        else c) }
      let db3 : DB := { db2 with payments := db2.payments ++
        [⟨ids.paymentId, ids.paymentNumber, "receipt", "customer", invoice.customerId,
          invoiceId, pd.paymentDate, pd.amount, pd.paymentMethod, pd.referenceNumber,
          pd.notes, pd.userId⟩] }
      let cashAccount := if pd.paymentMethod == "cash" then mappings.cashOnHand
                         else mappings.bankAccount
      JournalEntryModel.create ids.entryIds db3
        { entryDate := pd.paymentDate
          description := "Payment for " ++ invoice.invoiceNumber
          referenceType := "payment"
          referenceId := ids.paymentId
          userId := pd.userId
          lines := [⟨cashAccount, some pd.amount, some 0, none⟩,
                    ⟨mappings.accountsReceivable, some 0, some pd.amount, none⟩] }

/-! ## ProductModel and SalesModel (electron/database/models/product.js, sales.js) -/

/-- `ProductModel.updateStock`: adds `quantity` to the product stock and
records an `inventory_transactions` row (`uuidv4()` passed as
`movementId`). -/
def ProductModel.updateStock (movementId : String) (db : DB) (id : String) (quantity : ℚ)
    (transactionType : String) (userId : String) (notes : Option String) : DB :=
  { db with
    products := db.products.map (fun p =>
      if p.id == id then { p with currentStock := p.currentStock + quantity } else p),
    inventoryTransactions := db.inventoryTransactions ++
      [⟨movementId, id, transactionType, quantity, userId, notes⟩] }

/-- One element of `saleData.items`; `discountPercent` and `taxRate` may be
absent (`item.discountPercent || 0`). -/
structure SaleItemInput where
  productId : String
  quantity : ℚ
  unitPrice : ℚ
  discountPercent : Option ℚ
  taxRate : Option ℚ
deriving DecidableEq

/-- One element of `saleData.payments`. -/
structure SalePaymentInput where
  method : String
  amount : ℚ
  reference : Option String
deriving DecidableEq

/-- The `saleData` argument of `SalesModel.create`. -/
structure SaleData where
  customerId : Option String
  saleType : Option String
  discountAmount : Option ℚ
  amountPaid : ℚ
  paymentMethod : String
  notes : Option String
  userId : String
  items : List SaleItemInput
  payments : Option (List SalePaymentInput)
deriving DecidableEq

/-- `item.quantity * item.unitPrice * (1 - (item.discountPercent || 0) / 100)`. -/
def itemTotal (it : SaleItemInput) : ℚ :=
  it.quantity * it.unitPrice * (1 - it.discountPercent.getD 0 / 100)

/-- `itemTotal * (item.taxRate || 0) / 100`. -/
def itemTax (it : SaleItemInput) : ℚ :=
  itemTotal it * it.taxRate.getD 0 / 100

/-- The totals loop of `SalesModel.create`: accumulates `(subtotal, taxAmount)`
over the items. -/
def saleTotals (items : List SaleItemInput) : ℚ × ℚ :=
  items.foldl (fun acc it => (acc.1 + itemTotal it, acc.2 + itemTax it)) (0, 0)

/-- The run-time identifiers `SalesModel.create` generates: `uuidv4()` for
the sale, `generateInvoiceNumber()`, and per-index ids for sale items,
inventory transactions and sale payments. -/
structure SaleFreshIds where
  saleId : String
  invoiceNumber : String
  itemIds : Nat → String
  movementIds : Nat → String
  paymentIds : Nat → String

/-- The body of the item loop of `SalesModel.create` for the item at one
index: looks up the product (`ProductModel.findById`; reading `.cost_price`
of `undefined` throws a `TypeError`), inserts the `sale_items` row and
decreases the inventory. -/
def saleItemStep (ids : SaleFreshIds) (userId : String) (d : DB)
    (p : Nat × SaleItemInput) : Except String DB :=
  match d.products.find? (fun pr => pr.id == p.2.productId) with
  | none => .error "TypeError: product is undefined"
  | some product =>
    let d1 := { d with saleItems := d.saleItems ++
      [⟨ids.itemIds p.1, ids.saleId, p.2.productId, p.2.quantity, p.2.unitPrice,
        product.costPrice, p.2.taxRate.getD 0, p.2.discountPercent.getD 0,
        itemTotal p.2⟩] }
    .ok (ProductModel.updateStock (ids.movementIds p.1) d1 p.2.productId (-p.2.quantity)
      "sale" userId none)

/-- `SalesModel.create`: computes the totals, inserts the `sales` row
(`change_amount = Math.max(0, amountPaid - totalAmount)`), runs the item
loop, and inserts the optional `sale_payments` rows. -/
def SalesModel.create (ids : SaleFreshIds) (db : DB) (saleData : SaleData) :
    Except String DB := do
  let subtotal := (saleTotals saleData.items).1
  let taxAmount := (saleTotals saleData.items).2
  let discountAmount := saleData.discountAmount.getD 0
  let totalAmount := subtotal + taxAmount - discountAmount
  let db1 := { db with sales := db.sales ++
    [⟨ids.saleId, ids.invoiceNumber, saleData.customerId, saleData.saleType.getD "retail",
      subtotal, taxAmount, discountAmount, totalAmount, saleData.amountPaid,
      max 0 (saleData.amountPaid - totalAmount), saleData.paymentMethod, saleData.notes,
      saleData.userId⟩] }
  let db2 ← saleData.items.enum.foldlM (saleItemStep ids saleData.userId) db1
  match saleData.payments with
  | none => .ok db2
  | some ps => .ok { db2 with salePayments := db2.salePayments ++
      (ps.enum.map (fun q => ⟨ids.paymentIds q.1, ids.saleId, q.2.method, q.2.amount,
        q.2.reference⟩)) }

/-! ## API-key dependency (app/api/deps.py) -/

/-- A FastAPI `HTTPException` as raised by `verify_api_key`
(`headers` defaults to none, modelled as the empty list). -/
structure HTTPException where
  statusCode : Nat
  detail : String
  headers : List (String × String)
deriving DecidableEq

/-- `verify_api_key`: `401` when the `X-API-Key` header is absent
(`auto_error=False` makes the dependency receive `None`), `403` when the key
is not in `settings.api_keys_set`, and the key itself otherwise.
`settings.api_keys_set` is modelled by membership in the configured key
list (`set(...)` only changes the lookup cost). -/
def verify_api_key (apiKeysSet : List String) (api_key : Option String) :
    Except HTTPException String :=
  match api_key with
  | none => .error ⟨401, "API key is missing", [("WWW-Authenticate", "ApiKey")]⟩
  | some k =>
    if apiKeysSet.contains k then .ok k
    else .error ⟨403, "Invalid API key", []⟩

/-! ## Todo UI (frontend/components/todo-app.tsx) -/

/-- The `Priority` union type. -/
inductive TodoPriority where
  | CRITICAL
  | HIGH
  | MEDIUM
  | LOW
deriving DecidableEq

/-- The `ApiStatus` union type. -/
inductive ApiStatus where
  | connecting
  | online
  | offline
deriving DecidableEq

/-- The `LocalMeta` interface. -/
structure LocalMeta where
  completed : Bool
  priority : TodoPriority
deriving DecidableEq

/-- `DEFAULT_META`. -/
def DEFAULT_META : LocalMeta := ⟨false, .MEDIUM⟩

/-- A `BackendTodo` as the component consumes it (`bt.id`, `bt.task`). -/
structure BackendTodo where
  id : Int
  task : String
deriving DecidableEq

/-- The `localMeta` record: a JavaScript object keyed by the string form of
the backend id, modelled as an association list in key-creation order. -/
abbrev MetaMap : Type := List (String × LocalMeta)

/-- Reading `prev[id]`: the value at the first matching key, if present. -/
def objGet (m : MetaMap) (id : String) : Option LocalMeta :=
  (m.find? (fun p => p.1 == id)).map (fun p => p.2)

/-- The spread update `{ ...prev, [id]: v }`: replaces the value of an
existing key in place, appends a new key at the end. -/
def objSet (m : MetaMap) (id : String) (v : LocalMeta) : MetaMap :=
  if m.any (fun p => p.1 == id) then
    m.map (fun p => if p.1 == id then (id, v) else p)
  else
    m ++ [(id, v)]

/-- The component state the modelled handlers read or write (purely visual
state — clock, filter, loading, hover — is untouched by them and omitted). -/
structure AppState where
  backendTodos : List BackendTodo
  localMeta : MetaMap
  apiStatus : ApiStatus
  input : String
  priority : TodoPriority
deriving DecidableEq

/-- `toggleTodo`: flips `completed` for one id in `localMeta`
(`{ ...(prev[id] ?? DEFAULT_META), completed: !(prev[id]?.completed ?? false) }`). -/
def toggleTodo (s : AppState) (id : String) : AppState :=
  let newMeta : LocalMeta := { (objGet s.localMeta id).getD DEFAULT_META with
    completed := !(((objGet s.localMeta id).map (fun v => v.completed)).getD false) }
  { s with localMeta := objSet s.localMeta id newMeta }

/-- The completed flag the UI reads for an id
(`localMeta[String(bt.id)] ?? DEFAULT_META`). -/
def metaCompleted (s : AppState) (id : String) : Bool :=
  ((objGet s.localMeta id).getD DEFAULT_META).completed

/-- The priority the UI reads for an id. -/
def metaPriority (s : AppState) (id : String) : TodoPriority :=
  ((objGet s.localMeta id).getD DEFAULT_META).priority

/-- The outcome of the `createTodo(trimmed)` network call. -/
inductive CreateTodoResult where
  | ok (created : BackendTodo)
  | err
deriving DecidableEq

/-- `addTodo`: returns immediately when the trimmed input is empty;
otherwise clears the input, calls `createTodo`, and on success prepends the
created todo and initializes its local meta with the selected priority.
The second component records the arguments of the `createTodo` calls made. -/
def addTodo (api : String → CreateTodoResult) (s : AppState) : AppState × List String :=
  let trimmed := s.input.trim
  if trimmed.isEmpty then (s, [])
  else
    let s1 : AppState := { s with input := "" }
    match api trimmed with
    | .ok created =>
      ({ s1 with
          backendTodos := created :: s1.backendTodos,
          localMeta := objSet s1.localMeta (toString created.id) ⟨false, s.priority⟩,
          apiStatus := .online }, [trimmed])
    | .err => ({ s1 with apiStatus := .offline }, [trimmed])

/-! ## Spec-side observation functions -/

/-- Total balance over the accounts satisfying a type predicate (used to
state the balance-sheet equation). -/
def balSum (p : String → Bool) : List Account → ℚ
  | [] => 0
  | a :: t => (if p a.accountType then a.currentBalance else 0) + balSum p t

/-- Total balance of one side of the balance sheet. -/
def balanceTotal (p : String → Bool) (db : DB) : ℚ := balSum p db.accounts

/-- Sum of the `debit` columns of a list of joined entry lines. -/
def joinedDebitTotal (ls : List JoinedLine) : ℚ := (ls.map (fun l => l.line.debit)).sum

/-- Sum of the `credit` columns of a list of joined entry lines. -/
def joinedCreditTotal (ls : List JoinedLine) : ℚ := (ls.map (fun l => l.line.credit)).sum

/-- The id-and-type skeleton of the `accounts` table, preserved by balance
updates. -/
def accountShape (l : List Account) : List (String × String) :=
  l.map (fun a => (a.id, a.accountType))

/-! ## Concrete fixtures used by the witnesses -/

/-- Fresh identifiers for a concrete `JournalEntryModel.create` call. -/
def exEntryIds : EntryFreshIds := ⟨"je1", "JE-2025-00001", fun n => "jel" ++ toString n⟩

/-- A small chart of accounts: cash (asset), receivable (asset), revenue
(income). -/
def exAccounts : List Account :=
  [⟨"acc-cash", "1110", "Cash on Hand", "asset", 1, 100⟩,
   ⟨"acc-ar", "1200", "Accounts Receivable", "asset", 1, 50⟩,
   ⟨"acc-rev", "4100", "Sales Revenue", "income", 1, 150⟩]

/-- A database holding only the chart of accounts. -/
def exDB : DB := ⟨exAccounts, [], [], [], [], [], [], [], [], [], []⟩

/-- An unbalanced `create` payload (debit 5 versus credit 1). -/
def exBadData : CreateEntryData :=
  ⟨"2025-01-02", "unbalanced", "manual", "r1", "u1",
   [⟨"acc-cash", some 5, none, none⟩, ⟨"acc-rev", none, some 1, none⟩]⟩

/-- A payload whose debit/credit difference is `0.005`: inside the `0.01`
tolerance but not equal. -/
def exNearData : CreateEntryData :=
  ⟨"2025-01-02", "rounding drift", "manual", "r2", "u1",
   [⟨"acc-cash", some (1/200), none, none⟩]⟩

/-- A balanced cash-sale entry already inserted (unposted) with its lines. -/
def exEntryRow : JournalEntryRow :=
  ⟨"je1", "JE-2025-00001", "2025-01-01", "Cash sale", "sale", "s1", false, "u1"⟩

/-- The two lines of `exEntryRow`: debit cash 20, credit revenue 20. -/
def exEntryLines : List JournalLineRow :=
  [⟨"jel0", "je1", "acc-cash", 20, 0, none⟩,
   ⟨"jel1", "je1", "acc-rev", 0, 20, none⟩]

/-- `exDB` with the unposted entry in place. -/
def exPostDB : DB := { exDB with journalEntries := [exEntryRow], journalEntryLines := exEntryLines }

/-- The database after posting the entry. -/
def exPostedDB : DB := runTransaction exPostDB (JournalEntryModel.post exPostDB "je1")

/-- The account mappings used by the invoice fixtures. -/
def exMappings : AccountMappings := ⟨"acc-cash", "acc-bank", "acc-ar", "acc-rev", "acc-tax"⟩

/-- Fresh identifiers for a concrete `recordPayment` call. -/
def exPaymentIds : PaymentFreshIds :=
  ⟨"pay1", "RCP-2025-00001", ⟨"je2", "JE-2025-00002", fun n => "jel2-" ++ toString n⟩⟩

/-- A customer with an open balance. -/
def exCustomer : Customer := ⟨"cust1", "Ada", "ada@example.com", "555-0100", 80⟩

/-- An invoice of 80 with 30 already paid. -/
def exInvoice : Invoice :=
  ⟨"inv1", "INV-2025-00001", "cust1", none, "2025-01-03", "2025-02-03",
   75, 5, 0, 80, 30, "partial", none, "u1", "2025-01-03"⟩

/-- A database with the invoice and its customer. -/
def exInvoiceDB : DB :=
  { exDB with customers := [exCustomer], invoices := [exInvoice] }

/-- A 50-unit cash payment against `exInvoice`. -/
def exPaymentData : PaymentData := ⟨50, "2025-01-10", "cash", none, none, "u1"⟩

/-- The database after recording the payment. -/
def exPaidDB : DB :=
  runTransaction exInvoiceDB
    (InvoiceModel.recordPayment exPaymentIds exMappings "2025-01-10" exInvoiceDB "inv1" exPaymentData)

/-- Fresh identifiers for a concrete `SalesModel.create` call. -/
def exSaleIds : SaleFreshIds :=
  ⟨"sale1", "INV-20250110-0001", fun n => "si" ++ toString n, fun n => "mv" ++ toString n,
   fun n => "sp" ++ toString n⟩

/-- A product in stock. -/
def exProduct : Product := ⟨"prod1", "SKU-1", "Widget", 4, 10⟩

/-- A database with the product. -/
def exSaleDB : DB := { exDB with products := [exProduct] }

/-- A sale of 3 widgets at 10 with 10% item discount and 5% tax, paid 30. -/
def exSaleData : SaleData :=
  ⟨none, none, some 2, 30, "cash", none, "u1",
   [⟨"prod1", 3, 10, some 10, some 5⟩], none⟩

/-- The database after the sale. -/
def exSoldDB : DB := runTransaction exSaleDB (SalesModel.create exSaleIds exSaleDB exSaleData)

/-- A concrete Todo UI state: one backend todo, meta for id `"7"` completed
with HIGH priority. -/
def exAppState : AppState :=
  ⟨[⟨7, "write tests"⟩], [("7", ⟨true, .HIGH⟩)], .online, "  new task  ", .LOW⟩

/-- A `createTodo` stub that succeeds with backend id 8. -/
def exApi : String → CreateTodoResult := fun task => .ok ⟨8, task⟩

/-- Decidable equality for `Except` results (used to evaluate the concrete
witnesses). -/
instance {e a : Type} [DecidableEq e] [DecidableEq a] : DecidableEq (Except e a) := fun x y =>
  match x, y with
  | .ok v, .ok w =>
    if h : v = w then isTrue (by rw [h]) else isFalse (fun hh => h (Except.ok.inj hh))
  | .error v, .error w =>
    if h : v = w then isTrue (by rw [h]) else isFalse (fun hh => h (Except.error.inj hh))
  | .ok _, .error _ => isFalse (fun hh => Except.noConfusion hh)
  | .error _, .ok _ => isFalse (fun hh => Except.noConfusion hh)

/-! ## Lemmas about the JavaScript-object model -/

theorem find?_map_set (m : MetaMap) (id : String) (v : LocalMeta) :
    ((m.map (fun p => if p.1 == id then (id, v) else p)).find? (fun p => p.1 == id)) =
      if m.any (fun p => p.1 == id) then some (id, v) else none := by
  induction m with
  | nil => rfl
  | cons p t ih =>
    cases hp : (p.1 == id) with
    | true =>
      rw [List.map_cons, if_pos hp, List.find?_cons_of_pos _ (by simp), List.any_cons, hp]
      simp
    | false =>
      rw [List.map_cons, if_neg (by simp [hp]), List.find?_cons_of_neg _ (by simp [hp]), ih,
        List.any_cons, hp, Bool.false_or]

theorem find?_map_set_other (m : MetaMap) (id j : String) (v : LocalMeta) (hne : j ≠ id) :
    ((m.map (fun p => if p.1 == id then (id, v) else p)).find? (fun p => p.1 == j)) =
      m.find? (fun p => p.1 == j) := by
  have hij : (id == j) = false := beq_eq_false_iff_ne.mpr (Ne.symm hne)
  induction m with
  | nil => rfl
  | cons p t ih =>
    cases hp : (p.1 == id) with
    | true =>
      have hpj : (p.1 == j) = false := by
        rw [eq_of_beq hp]
        exact hij
      rw [List.map_cons, if_pos hp, List.find?_cons_of_neg _ (by simp [hij]),
        List.find?_cons_of_neg _ (by simp [hpj]), ih]
    | false =>
      rw [List.map_cons, if_neg (by simp [hp])]
      cases hj : (p.1 == j) with
      | true =>
        simp only [List.find?, hj]
      | false =>
        simp only [List.find?, hj]
        exact ih

theorem objGet_objSet_self (m : MetaMap) (id : String) (v : LocalMeta) :
    objGet (objSet m id v) id = some v := by
  unfold objGet objSet
  by_cases h : m.any (fun p => p.1 == id)
  · rw [if_pos h, find?_map_set, if_pos h]
    rfl
  · rw [if_neg h, List.find?_append]
    have hnone : m.find? (fun p => p.1 == id) = none := by
      rw [List.find?_eq_none]
      intro x hx hpx
      exact h (List.any_eq_true.mpr ⟨x, hx, hpx⟩)
    rw [hnone]
    simp [List.find?]

theorem objGet_objSet_other (m : MetaMap) (id j : String) (v : LocalMeta) (hne : j ≠ id) :
    objGet (objSet m id v) j = objGet m j := by
  unfold objGet objSet
  by_cases h : m.any (fun p => p.1 == id)
  · rw [if_pos h, find?_map_set_other m id j v hne]
  · rw [if_neg h, List.find?_append]
    have hij : (id == j) = false := beq_eq_false_iff_ne.mpr (Ne.symm hne)
    simp [List.find?, hij]

/-! ## C8: API-key dependency -/

/-- C8: `verify_api_key` raises HTTP 401 with detail `API key is missing`
exactly when the header is absent, HTTP 403 with detail `Invalid API key`
exactly when the supplied key is not in the configured key set, and
otherwise returns the supplied key unchanged. -/
theorem C8_verify_api_key_spec (apiKeysSet : List String) (api_key : Option String) :
    (api_key = none →
      verify_api_key apiKeysSet api_key =
        .error ⟨401, "API key is missing", [("WWW-Authenticate", "ApiKey")]⟩)
  ∧ (∀ k, api_key = some k → apiKeysSet.contains k = false →
      verify_api_key apiKeysSet api_key = .error ⟨403, "Invalid API key", []⟩)
  ∧ (∀ k, api_key = some k → apiKeysSet.contains k = true →
      verify_api_key apiKeysSet api_key = .ok k)
  ∧ (∀ e, verify_api_key apiKeysSet api_key = .error e →
      (e.statusCode = 401 ∧ e.detail = "API key is missing" ∧ api_key = none) ∨
      (e.statusCode = 403 ∧ e.detail = "Invalid API key" ∧
        ∃ k, api_key = some k ∧ apiKeysSet.contains k = false)) := by
  refine ⟨?_, ?_, ?_, ?_⟩
  · rintro rfl
    rfl
  · rintro k rfl hk
    simp only [verify_api_key, hk]
    rfl
  · rintro k rfl hk
    simp only [verify_api_key, hk]
    rfl
  · intro e he
    cases api_key with
    | none =>
      left
      simp only [verify_api_key] at he
      have he2 : (⟨401, "API key is missing", [("WWW-Authenticate", "ApiKey")]⟩ : HTTPException) = e := by
        simpa using he
      subst he2
      exact ⟨rfl, rfl, rfl⟩
    | some k =>
      right
      cases hmem : apiKeysSet.contains k with
      | true =>
        simp only [verify_api_key, hmem] at he
        simp at he
      | false =>
        simp only [verify_api_key, hmem] at he
        have he2 : (⟨403, "Invalid API key", []⟩ : HTTPException) = e := by
          simpa using he
        subst he2
        exact ⟨rfl, rfl, k, rfl, hmem⟩

/-- Witness for C8 at a concrete key set and the three header shapes. -/
theorem C8_verify_api_key_spec_witness :
    verify_api_key ["k1"] none =
      .error ⟨401, "API key is missing", [("WWW-Authenticate", "ApiKey")]⟩
  ∧ verify_api_key ["k1"] (some "bad") = .error ⟨403, "Invalid API key", []⟩
  ∧ verify_api_key ["k1"] (some "k1") = .ok "k1" :=
  ⟨(C8_verify_api_key_spec ["k1"] none).1 rfl,
   (C8_verify_api_key_spec ["k1"] (some "bad")).2.1 "bad" rfl (by decide),
   (C8_verify_api_key_spec ["k1"] (some "k1")).2.2.1 "k1" rfl (by decide)⟩

/-! ## C9 and C10: Todo UI handlers -/

theorem metaCompleted_eq_optGet (s : AppState) (id : String) :
    (((objGet s.localMeta id).map (fun v => v.completed)).getD false) = metaCompleted s id := by
  unfold metaCompleted
  cases objGet s.localMeta id with
  | none => rfl
  | some v => rfl

theorem toggle_completed_eq (s : AppState) (id : String) :
    metaCompleted (toggleTodo s id) id = !(metaCompleted s id) := by
  unfold metaCompleted toggleTodo
  simp only [objGet_objSet_self, Option.getD_some]
  rw [metaCompleted_eq_optGet]
  rfl

/-- C9: `toggleTodo` is an involution on the completed flag read for an id
(an absent entry reading as `DEFAULT_META`), one application flips exactly
that id's flag and leaves every other id's entry unchanged, and it never
changes any id's priority or the `backendTodos` list. -/
theorem C9_toggleTodo_involution (s : AppState) (id : String) :
    metaCompleted (toggleTodo (toggleTodo s id) id) id = metaCompleted s id
  ∧ metaCompleted (toggleTodo s id) id = !(metaCompleted s id)
  ∧ (∀ j, j ≠ id → objGet (toggleTodo s id).localMeta j = objGet s.localMeta j)
  ∧ (∀ j, metaPriority (toggleTodo s id) j = metaPriority s j)
  ∧ (toggleTodo s id).backendTodos = s.backendTodos := by
  refine ⟨?_, toggle_completed_eq s id, ?_, ?_, rfl⟩
  · rw [toggle_completed_eq, toggle_completed_eq, Bool.not_not]
  · intro j hj
    unfold toggleTodo
    exact objGet_objSet_other _ _ _ _ hj
  · intro j
    by_cases hj : j = id
    · subst hj
      unfold metaPriority toggleTodo
      simp only [objGet_objSet_self, Option.getD_some]
    · unfold metaPriority toggleTodo
      rw [objGet_objSet_other _ _ _ _ hj]

/-- Witness for C9 at a concrete state, a present id and an absent id. -/
theorem C9_toggleTodo_involution_witness :
    metaCompleted (toggleTodo (toggleTodo exAppState "7") "7") "7" = metaCompleted exAppState "7"
  ∧ metaCompleted (toggleTodo (toggleTodo exAppState "9") "9") "9" = metaCompleted exAppState "9"
  ∧ objGet (toggleTodo exAppState "7").localMeta "9" = objGet exAppState.localMeta "9"
  ∧ metaPriority (toggleTodo exAppState "7") "7" = metaPriority exAppState "7" :=
  ⟨(C9_toggleTodo_involution exAppState "7").1,
   (C9_toggleTodo_involution exAppState "9").1,
   (C9_toggleTodo_involution exAppState "7").2.2.1 "9" (by decide),
   (C9_toggleTodo_involution exAppState "7").2.2.2.1 "7"⟩

/-- C10: `addTodo` with a whitespace-only input makes no `createTodo` call
and returns the state unchanged; with a non-empty trimmed input and a
successful `createTodo`, it calls the API once with the trimmed text,
prepends the created todo to `backendTodos`, and initializes that todo's
local meta to `completed = false` with the currently selected priority. -/
theorem C10_addTodo_frame (api : String → CreateTodoResult) (s : AppState) :
    (s.input.trim = "" → addTodo api s = (s, []))
  ∧ (∀ t, api s.input.trim = .ok t →
      s.input.trim ≠ "" →
      (addTodo api s).2 = [s.input.trim]
      ∧ (addTodo api s).1.backendTodos = t :: s.backendTodos
      ∧ objGet (addTodo api s).1.localMeta (toString t.id) = some ⟨false, s.priority⟩
      ∧ (addTodo api s).1.apiStatus = .online) := by
  constructor
  · intro h
    unfold addTodo
    rw [if_pos (by rw [h]; rfl)]
  · intro t hapi hne
    have hemp : s.input.trim.isEmpty = false := by
      cases he : s.input.trim.isEmpty with
      | true =>
        exact absurd ((String.isEmpty_iff _).mp he) hne
      | false => rfl
    unfold addTodo
    simp only [hemp, Bool.false_eq_true, if_false, hapi]
    exact ⟨trivial, trivial, objGet_objSet_self _ _ _, trivial⟩

/-- Witness for C10: a whitespace input is a no-op; the concrete successful
add prepends backend id 8 and stores `LOW` (the selected priority). -/
theorem C10_addTodo_frame_witness :
    addTodo exApi { exAppState with input := "   " } = ({ exAppState with input := "   " }, [])
  ∧ objGet (addTodo exApi exAppState).1.localMeta "8" =
      some ⟨false, TodoPriority.LOW⟩
  ∧ (addTodo exApi exAppState).1.backendTodos = ⟨8, "new task"⟩ :: exAppState.backendTodos :=
  ⟨(C10_addTodo_frame exApi { exAppState with input := "   " }).1 (by with_unfolding_all decide),
   (C10_addTodo_frame exApi exAppState).2 ⟨8, "new task"⟩ (by with_unfolding_all decide)
     (by with_unfolding_all decide) |>.2.2.1,
   (C10_addTodo_frame exApi exAppState).2 ⟨8, "new task"⟩ (by with_unfolding_all decide)
     (by with_unfolding_all decide) |>.2.1⟩

/-! ## Lemmas about `Except` and the monadic folds -/

theorem exceptError_bind {α β : Type} (e : String) (f : α → Except String β) :
    (Except.error e >>= f) = Except.error e := rfl

theorem exceptOk_bind {α β : Type} (a : α) (f : α → Except String β) :
    (Except.ok a >>= f) = f a := rfl

/-! ## C3 and C1: validation in `JournalEntryModel.create` -/

/-- C3: `JournalEntryModel.create` throws precisely the error
`Debits and credits must be equal`, precisely when the absolute difference
between total debits and total credits (absent fields counting as 0)
exceeds `0.01`; the throw aborts the transaction, leaving the database
unchanged. -/
theorem C3_create_error_spec (ids : EntryFreshIds) (db : DB) (data : CreateEntryData) :
    (∀ msg, JournalEntryModel.create ids db data = .error msg ↔
      (msg = "Debits and credits must be equal" ∧
        |totalDebit data.lines - totalCredit data.lines| > 1/100))
  ∧ (|totalDebit data.lines - totalCredit data.lines| > 1/100 →
      runTransaction db (JournalEntryModel.create ids db data) = db) := by
  have hcase : ∀ msg, JournalEntryModel.create ids db data = .error msg ↔
      (msg = "Debits and credits must be equal" ∧
        |totalDebit data.lines - totalCredit data.lines| > 1/100) := by
    intro msg
    unfold JournalEntryModel.create
    by_cases h : |totalDebit data.lines - totalCredit data.lines| > 1/100
    · rw [if_pos h]
      constructor
      · intro he
        have hmsg : "Debits and credits must be equal" = msg := by simpa using he
        exact ⟨hmsg.symm, h⟩
      · rintro ⟨rfl, _⟩
        rfl
    · rw [if_neg h]
      constructor
      · intro he
        exact Except.noConfusion he
      · rintro ⟨_, hgt⟩
        exact absurd hgt h
  refine ⟨hcase, ?_⟩
  intro h
  have herr : JournalEntryModel.create ids db data = .error "Debits and credits must be equal" :=
    (hcase _).mpr ⟨rfl, h⟩
  rw [herr]
  rfl

/-- Witness for C3: a 5-versus-1 entry is rejected with the exact message
and the rolled-back database equals the original. -/
theorem C3_create_error_spec_witness :
    JournalEntryModel.create exEntryIds exDB exBadData = .error "Debits and credits must be equal"
  ∧ runTransaction exDB (JournalEntryModel.create exEntryIds exDB exBadData) = exDB :=
  ⟨((C3_create_error_spec exEntryIds exDB exBadData).1 _).mpr ⟨rfl, by with_unfolding_all decide⟩,
   (C3_create_error_spec exEntryIds exDB exBadData).2 (by with_unfolding_all decide)⟩

/-- C1 counterexample: a single line with debit `0.005` and no credit is
accepted by `JournalEntryModel.create` (the `0.01` tolerance), yet its total
debits differ from its total credits — the claim's exact-equality invariant
fails. -/
theorem C1_counterexample :
    (JournalEntryModel.create exEntryIds exDB exNearData).isOk = true
  ∧ ¬ (totalDebit exNearData.lines = totalCredit exNearData.lines) := by
  constructor
  · with_unfolding_all decide
  · with_unfolding_all decide

/-- C1 (amended): every entry accepted by `JournalEntryModel.create` has
total debits within `0.01` of total credits (not necessarily equal). -/
theorem C1_create_accepts_within_tolerance (ids : EntryFreshIds) (db : DB)
    (data : CreateEntryData) (db2 : DB)
    (h : JournalEntryModel.create ids db data = .ok db2) :
    |totalDebit data.lines - totalCredit data.lines| ≤ 1/100 := by
  by_contra hgt
  rw [not_le] at hgt
  unfold JournalEntryModel.create at h
  rw [if_pos hgt] at h
  exact Except.noConfusion h

/-- Witness for C1 (amended) at the accepted `0.005` entry. -/
theorem C1_create_accepts_within_tolerance_witness :
    |totalDebit exNearData.lines - totalCredit exNearData.lines| ≤ 1/100 :=
  C1_create_accepts_within_tolerance exEntryIds exDB exNearData
    (runTransaction exDB (JournalEntryModel.create exEntryIds exDB exNearData))
    (by with_unfolding_all decide)

/-! ## C7: totals stored by `SalesModel.create` -/

theorem saleTotals_eq (items : List SaleItemInput) :
    saleTotals items = ((items.map itemTotal).sum, (items.map itemTax).sum) := by
  unfold saleTotals
  suffices h : ∀ a b : ℚ,
      items.foldl (fun acc it => (acc.1 + itemTotal it, acc.2 + itemTax it)) (a, b) =
        (a + (items.map itemTotal).sum, b + (items.map itemTax).sum) by
    rw [h 0 0, zero_add, zero_add]
  induction items with
  | nil =>
    intro a b
    simp
  | cons it t ih =>
    intro a b
    simp only [List.foldl_cons, ih, List.map_cons, List.sum_cons]
    rw [add_assoc, add_assoc]

theorem foldlM_ok_preserves {α β : Type} (g : DB → β) (f : DB → α → Except String DB)
    (hp : ∀ d x d2, f d x = .ok d2 → g d2 = g d) :
    ∀ (l : List α) (d d2 : DB), l.foldlM f d = .ok d2 → g d2 = g d := by
  intro l
  induction l with
  | nil =>
    intro d d2 h
    rw [List.foldlM_nil] at h
    cases h
    rfl
  | cons x t ih =>
    intro d d2 h
    rw [List.foldlM_cons] at h
    cases hs : f d x with
    | error e =>
      rw [hs, exceptError_bind] at h
      exact Except.noConfusion h
    | ok d1 =>
      rw [hs, exceptOk_bind] at h
      rw [ih d1 d2 h, hp d x d1 hs]

theorem saleItemStep_sales (ids : SaleFreshIds) (uid : String) (d : DB)
    (p : Nat × SaleItemInput) (d2 : DB) (h : saleItemStep ids uid d p = .ok d2) :
    d2.sales = d.sales := by
  unfold saleItemStep at h
  cases hf : d.products.find? (fun pr => pr.id == p.2.productId) with
  | none =>
    rw [hf] at h
    exact Except.noConfusion h
  | some product =>
    rw [hf] at h
    cases h
    rfl

/-- C7: every stored sale satisfies the claimed total formulas, and the
stored change is never negative. -/
theorem C7_sale_totals (ids : SaleFreshIds) (db : DB) (saleData : SaleData) (db2 : DB)
    (h : SalesModel.create ids db saleData = .ok db2) :
    ∃ s : SaleRow, db2.sales = db.sales ++ [s]
      ∧ s.subtotal = (saleData.items.map itemTotal).sum
      ∧ s.taxAmount = (saleData.items.map itemTax).sum
      ∧ s.totalAmount = s.subtotal + s.taxAmount - saleData.discountAmount.getD 0
      ∧ s.changeAmount = max 0 (saleData.amountPaid - s.totalAmount)
      ∧ 0 ≤ s.changeAmount := by
  simp only [SalesModel.create] at h
  cases hf : saleData.items.enum.foldlM (saleItemStep ids saleData.userId)
      ({ db with sales := db.sales ++
        [⟨ids.saleId, ids.invoiceNumber, saleData.customerId, saleData.saleType.getD "retail",
          (saleTotals saleData.items).1, (saleTotals saleData.items).2,
          saleData.discountAmount.getD 0,
          (saleTotals saleData.items).1 + (saleTotals saleData.items).2 -
            saleData.discountAmount.getD 0,
          saleData.amountPaid,
          max 0 (saleData.amountPaid -
            ((saleTotals saleData.items).1 + (saleTotals saleData.items).2 -
              saleData.discountAmount.getD 0)),
          saleData.paymentMethod, saleData.notes, saleData.userId⟩] }) with
  | error e =>
    rw [hf, exceptError_bind] at h
    exact Except.noConfusion h
  | ok d2 =>
    rw [hf, exceptOk_bind] at h
    have hsales : d2.sales = db.sales ++
        [⟨ids.saleId, ids.invoiceNumber, saleData.customerId, saleData.saleType.getD "retail",
          (saleTotals saleData.items).1, (saleTotals saleData.items).2,
          saleData.discountAmount.getD 0,
          (saleTotals saleData.items).1 + (saleTotals saleData.items).2 -
            saleData.discountAmount.getD 0,
          saleData.amountPaid,
          max 0 (saleData.amountPaid -
            ((saleTotals saleData.items).1 + (saleTotals saleData.items).2 -
              saleData.discountAmount.getD 0)),
          saleData.paymentMethod, saleData.notes, saleData.userId⟩] :=
      foldlM_ok_preserves (fun d => d.sales) (saleItemStep ids saleData.userId)
        (saleItemStep_sales ids saleData.userId) _ _ _ hf
    have hdb2 : db2.sales = d2.sales := by
      cases hp : saleData.payments with
      | none =>
        rw [hp] at h
        cases h
        rfl
      | some ps =>
        rw [hp] at h
        cases h
        rfl
    refine ⟨_, hdb2.trans hsales, ?_, ?_, rfl, rfl, le_max_left 0 _⟩
    · show (saleTotals saleData.items).1 = (saleData.items.map itemTotal).sum
      rw [saleTotals_eq]
    · show (saleTotals saleData.items).2 = (saleData.items.map itemTax).sum
      rw [saleTotals_eq]

set_option maxRecDepth 4000 in
/-- Witness for C7 at the concrete widget sale: 3×10 with 10% discount and
5% tax, 2 sale-level discount, 30 paid. -/
theorem C7_sale_totals_witness :
    ∃ s : SaleRow, exSoldDB.sales = exSaleDB.sales ++ [s]
      ∧ s.subtotal = (exSaleData.items.map itemTotal).sum
      ∧ s.taxAmount = (exSaleData.items.map itemTax).sum
      ∧ s.totalAmount = s.subtotal + s.taxAmount - exSaleData.discountAmount.getD 0
      ∧ s.changeAmount = max 0 (exSaleData.amountPaid - s.totalAmount)
      ∧ 0 ≤ s.changeAmount :=
  C7_sale_totals exSaleIds exSaleDB exSaleData exSoldDB (by with_unfolding_all decide)

/-! ## C4: trial balance -/

theorem debitNormal_not_creditNormal (t : String) :
    isDebitNormal t = true → isCreditNormal t = false := by
  intro h
  have ht : t = "asset" ∨ t = "expense" := by
    simpa [isDebitNormal] using h
  rcases ht with rfl | rfl <;> decide

theorem creditNormal_not_debitNormal (t : String) :
    isCreditNormal t = true → isDebitNormal t = false := by
  intro h
  have ht : t = "liability" ∨ t = "equity" ∨ t = "income" := by
    simpa [isCreditNormal, or_assoc] using h
  rcases ht with rfl | rfl | rfl <;> decide

/-- C4: the trial balance contains exactly one row per active account with a
nonzero balance; asset/expense rows carry the balance in `debit_balance`
with `credit_balance = 0`, liability/equity/income rows carry it in
`credit_balance` with `debit_balance = 0`, and the rows are ordered by
account code. -/
theorem C4_trial_balance_spec (db : DB) :
    (∀ row, row ∈ FinancialReports.getTrialBalance db ↔
      ∃ a, a ∈ db.accounts ∧ a.currentBalance ≠ 0 ∧ a.isActive = 1 ∧ row = trialBalanceRow a)
  ∧ (∀ a : Account,
      (isDebitNormal a.accountType = true →
        (trialBalanceRow a).debitBalance = a.currentBalance ∧
        (trialBalanceRow a).creditBalance = 0)
      ∧ (isCreditNormal a.accountType = true →
        (trialBalanceRow a).creditBalance = a.currentBalance ∧
        (trialBalanceRow a).debitBalance = 0))
  ∧ (FinancialReports.getTrialBalance db).Sorted (fun r1 r2 => r1.code ≤ r2.code) := by
  refine ⟨?_, ?_, ?_⟩
  · intro row
    unfold FinancialReports.getTrialBalance
    rw [(List.perm_insertionSort _ _).mem_iff]
    constructor
    · intro hm
      rcases List.mem_map.mp hm with ⟨a, hf, rfl⟩
      rcases List.mem_filter.mp hf with ⟨ha, hpred⟩
      rw [Bool.and_eq_true] at hpred
      refine ⟨a, ha, ?_, ?_, rfl⟩
      · simpa using hpred.1
      · simpa using hpred.2
    · rintro ⟨a, ha, h1, h2, rfl⟩
      exact List.mem_map.mpr ⟨a, List.mem_filter.mpr ⟨ha, by simp [h1, h2]⟩, rfl⟩
  · intro a
    constructor
    · intro h
      unfold trialBalanceRow
      rw [if_pos h, if_neg (by simp [debitNormal_not_creditNormal a.accountType h])]
      exact ⟨rfl, rfl⟩
    · intro h
      unfold trialBalanceRow
      rw [if_pos h, if_neg (by simp [creditNormal_not_debitNormal a.accountType h])]
      exact ⟨rfl, rfl⟩
  · have htot : IsTotal TrialBalanceRow (fun r1 r2 => r1.code ≤ r2.code) :=
      ⟨fun a b => le_total a.code b.code⟩
    have htrans : IsTrans TrialBalanceRow (fun r1 r2 => r1.code ≤ r2.code) :=
      ⟨fun a b c h1 h2 => le_trans h1 h2⟩
    exact @List.sorted_insertionSort TrialBalanceRow _ _ htot htrans _

/-- Witness for C4: the cash account row appears in the concrete trial
balance and the report is sorted by code. -/
theorem C4_trial_balance_spec_witness :
    trialBalanceRow ⟨"acc-cash", "1110", "Cash on Hand", "asset", 1, 100⟩ ∈
      FinancialReports.getTrialBalance exDB
  ∧ (FinancialReports.getTrialBalance exDB).Sorted (fun r1 r2 => r1.code ≤ r2.code)
  ∧ (trialBalanceRow ⟨"acc-cash", "1110", "Cash on Hand", "asset", 1, 100⟩).debitBalance = 100 :=
  ⟨((C4_trial_balance_spec exDB).1 _).mpr
      ⟨⟨"acc-cash", "1110", "Cash on Hand", "asset", 1, 100⟩,
        by with_unfolding_all decide, by with_unfolding_all decide,
        by with_unfolding_all decide, rfl⟩,
   (C4_trial_balance_spec exDB).2.2,
   (((C4_trial_balance_spec exDB).2.1 ⟨"acc-cash", "1110", "Cash on Hand", "asset", 1, 100⟩).1
      (by decide)).1⟩

/-! ## C6: invoice payments -/

theorem find?_map_update {α : Type} (key : α → Bool) (g : α → α)
    (hkey : ∀ x, key (g x) = key x) (l : List α) :
    ((l.map (fun x => if key x then g x else x)).find? key) = (l.find? key).map g := by
  induction l with
  | nil => rfl
  | cons a t ih =>
    cases ha : key a with
    | true =>
      rw [List.map_cons, if_pos ha, List.find?_cons_of_pos _ (by rw [hkey]; exact ha),
        List.find?_cons_of_pos _ ha, Option.map_some']
    | false =>
      rw [List.map_cons, if_neg (by simp [ha]), List.find?_cons_of_neg _ (by simp [ha]),
        List.find?_cons_of_neg _ (by simp [ha]), ih]

theorem create_ok_of_balanced (ids : EntryFreshIds) (db : DB) (data : CreateEntryData)
    (hbal : totalDebit data.lines = totalCredit data.lines) :
    JournalEntryModel.create ids db data = .ok { db with
      journalEntries := db.journalEntries ++
        [⟨ids.entryId, ids.entryNumber, data.entryDate, data.description,
          data.referenceType, data.referenceId, false, data.userId⟩],
      journalEntryLines := db.journalEntryLines ++
        data.lines.enum.map (fun p =>
          ⟨ids.lineIds p.1, ids.entryId, p.2.accountId, lineDebit p.2, lineCredit p.2,
           p.2.description⟩) } := by
  have hc : ¬ (|totalDebit data.lines - totalCredit data.lines| > 1/100) := by
    rw [hbal, sub_self, abs_zero]
    norm_num
  unfold JournalEntryModel.create
  rw [if_neg hc]

theorem create_payment_entry_ok (ids : EntryFreshIds) (db : DB)
    (entryDate desc refId uid cashAccount arAccount : String) (amount : ℚ) :
    JournalEntryModel.create ids db
      ⟨entryDate, desc, "payment", refId, uid,
        [⟨cashAccount, some amount, some 0, none⟩,
         ⟨arAccount, some 0, some amount, none⟩]⟩ =
      .ok { db with
        journalEntries := db.journalEntries ++
          [⟨ids.entryId, ids.entryNumber, entryDate, desc, "payment", refId, false, uid⟩],
        journalEntryLines := db.journalEntryLines ++
          [⟨ids.lineIds 0, ids.entryId, cashAccount, amount, 0, none⟩,
           ⟨ids.lineIds 1, ids.entryId, arAccount, 0, amount, none⟩] } := by
  have hbal : totalDebit [⟨cashAccount, some amount, some 0, none⟩,
        ⟨arAccount, some 0, some amount, none⟩] =
      totalCredit [⟨cashAccount, some amount, some 0, none⟩,
        ⟨arAccount, some 0, some amount, none⟩] := by
    simp [totalDebit, totalCredit, lineDebit, lineCredit]
  exact create_ok_of_balanced ids db
    ⟨entryDate, desc, "payment", refId, uid,
      [⟨cashAccount, some amount, some 0, none⟩,
       ⟨arAccount, some 0, some amount, none⟩]⟩ hbal

/-- C6: for an existing invoice, `recordPayment` throws
`Payment amount exceeds remaining balance` exactly when the payment exceeds
`total_amount - amount_paid`; otherwise it succeeds, adds the amount to
`amount_paid`, sets the status to `paid` when the new `amount_paid` reaches
the total and `partial` otherwise, subtracts the amount from the customer
balance, and appends a journal entry debiting cash/bank and crediting
accounts receivable by exactly the payment amount. -/
theorem C6_recordPayment_spec (ids : PaymentFreshIds) (mappings : AccountMappings)
    (now : String) (db : DB) (invoiceId : String) (pd : PaymentData)
    (inv : Invoice) (cust : Customer) (pays : List PaymentRow)
    (hfind : InvoiceModel.findById db invoiceId = some (inv, cust, pays)) :
    (InvoiceModel.recordPayment ids mappings now db invoiceId pd =
        .error "Payment amount exceeds remaining balance" ↔
      pd.amount > inv.totalAmount - inv.amountPaid)
  ∧ (pd.amount ≤ inv.totalAmount - inv.amountPaid →
      ∃ db2, InvoiceModel.recordPayment ids mappings now db invoiceId pd = .ok db2)
  ∧ (∀ db2, InvoiceModel.recordPayment ids mappings now db invoiceId pd = .ok db2 →
      ((db2.invoices.find? (fun i => i.id == invoiceId)).map (fun i => i.amountPaid) =
        some (inv.amountPaid + pd.amount))
    ∧ ((db2.invoices.find? (fun i => i.id == invoiceId)).map (fun i => i.status) =
        some (if inv.amountPaid + pd.amount ≥ inv.totalAmount then "paid" else "partial"))
    ∧ ((db2.customers.find? (fun c => c.id == inv.customerId)).map (fun c => c.currentBalance) =
        some (cust.currentBalance - pd.amount))
    ∧ (∃ l1 l2 : JournalLineRow,
        db2.journalEntryLines = db.journalEntryLines ++ [l1, l2]
        ∧ l1.accountId = (if pd.paymentMethod == "cash" then mappings.cashOnHand
                          else mappings.bankAccount)
        ∧ l1.debit = pd.amount ∧ l1.credit = 0
        ∧ l2.accountId = mappings.accountsReceivable
        ∧ l2.debit = 0 ∧ l2.credit = pd.amount)) := by
  have hinv : db.invoices.find? (fun i => i.id == invoiceId) = some inv ∧
      db.customers.find? (fun c => c.id == inv.customerId) = some cust := by
    have hfind2 := hfind
    unfold InvoiceModel.findById at hfind2
    revert hfind2
    cases hi : db.invoices.find? (fun i => i.id == invoiceId) with
    | none =>
      intro hfind2
      exact Option.noConfusion hfind2
    | some inv0 =>
      intro hfind2
      have hmap : (db.customers.find? (fun c => c.id == inv0.customerId)).map
          (fun c => (inv0, c, db.payments.filter (fun p => p.invoiceId == invoiceId))) =
          some (inv, cust, pays) := hfind2
      cases hc : db.customers.find? (fun c => c.id == inv0.customerId) with
      | none =>
        rw [hc] at hmap
        exact Option.noConfusion hmap
      | some c0 =>
        rw [hc, Option.map_some'] at hmap
        cases hmap
        exact ⟨rfl, hc⟩
  refine ⟨?_, ?_, ?_⟩
  · constructor
    · intro herr
      by_contra hgt2
      simp only [InvoiceModel.recordPayment, hfind] at herr
      rw [if_neg hgt2, create_payment_entry_ok] at herr
      exact Except.noConfusion herr
    · intro hgt2
      simp only [InvoiceModel.recordPayment, hfind]
      rw [if_pos hgt2]
  · intro hle
    apply Exists.intro
    simp only [InvoiceModel.recordPayment, hfind]
    rw [if_neg (not_lt.mpr hle), create_payment_entry_ok]
  · intro db2 h
    simp only [InvoiceModel.recordPayment, hfind] at h
    by_cases hgt2 : pd.amount > inv.totalAmount - inv.amountPaid
    · rw [if_pos hgt2] at h
      exact Except.noConfusion h
    · rw [if_neg hgt2, create_payment_entry_ok] at h
      have hdb2 := (Except.ok.inj h).symm
      subst hdb2
      refine ⟨?_, ?_, ?_, ?_⟩
      · rw [find?_map_update (fun i : Invoice => i.id == invoiceId)
            (fun i => { i with amountPaid := inv.amountPaid + pd.amount, status := (if inv.amountPaid + pd.amount ≥ inv.totalAmount then "paid" else "partial"), updatedAt := now })
            (fun x => rfl) db.invoices, hinv.1, Option.map_some']
        rfl
      · rw [find?_map_update (fun i : Invoice => i.id == invoiceId)
            (fun i => { i with amountPaid := inv.amountPaid + pd.amount, status := (if inv.amountPaid + pd.amount ≥ inv.totalAmount then "paid" else "partial"), updatedAt := now })
            (fun x => rfl) db.invoices, hinv.1, Option.map_some']
        rfl
      · rw [find?_map_update (fun c : Customer => c.id == inv.customerId)
            (fun c => { c with currentBalance := c.currentBalance - pd.amount })
            (fun x => rfl) db.customers, hinv.2, Option.map_some']
        rfl
      · exact ⟨_, _, rfl, rfl, rfl, rfl, rfl, rfl, rfl⟩

/-- Witness for C6 at the concrete invoice (total 80, paid 30) and a 50
cash payment: no overpayment error, success, and the stored invoice reaches
`paid` with `amount_paid = 80`. -/
theorem C6_recordPayment_spec_witness :
    (InvoiceModel.recordPayment exPaymentIds exMappings "2025-01-10" exInvoiceDB "inv1"
        exPaymentData = .error "Payment amount exceeds remaining balance" ↔
      exPaymentData.amount > exInvoice.totalAmount - exInvoice.amountPaid)
  ∧ (∃ db2, InvoiceModel.recordPayment exPaymentIds exMappings "2025-01-10" exInvoiceDB "inv1"
      exPaymentData = .ok db2)
  ∧ ((exPaidDB.invoices.find? (fun i => i.id == "inv1")).map (fun i => i.amountPaid) =
      some (exInvoice.amountPaid + exPaymentData.amount)) := by
  have h := C6_recordPayment_spec exPaymentIds exMappings "2025-01-10" exInvoiceDB "inv1"
    exPaymentData exInvoice exCustomer [] (by with_unfolding_all decide)
  exact ⟨h.1, h.2.1 (by with_unfolding_all decide),
    (h.2.2 exPaidDB (by with_unfolding_all decide)).1⟩

/-! ## C5 and C2: posting journal entries -/

theorem postLine_error_msg (d : DB) (l : JournalLineRow) (msg : String)
    (h : postLine d l = .error msg) : msg = "TypeError: account is undefined" := by
  unfold postLine at h
  cases hf : accountTypeOf d l.accountId with
  | none =>
    rw [hf] at h
    exact (Except.error.inj h).symm
  | some t =>
    rw [hf] at h
    exact Except.noConfusion h

theorem postLine_journalEntries (d : DB) (l : JournalLineRow) (d2 : DB)
    (h : postLine d l = .ok d2) : d2.journalEntries = d.journalEntries := by
  unfold postLine at h
  cases hf : accountTypeOf d l.accountId with
  | none =>
    rw [hf] at h
    exact Except.noConfusion h
  | some t =>
    rw [hf] at h
    cases h
    rfl

theorem postLines_error (ls : List JoinedLine) : ∀ (d : DB) (msg : String),
    ls.foldlM (fun x jl => postLine x jl.line) d = .error msg →
    msg = "TypeError: account is undefined" := by
  induction ls with
  | nil =>
    intro d msg h
    rw [List.foldlM_nil] at h
    exact Except.noConfusion h
  | cons jl t ih =>
    intro d msg h
    rw [List.foldlM_cons] at h
    cases hs : postLine d jl.line with
    | error e =>
      rw [hs, exceptError_bind] at h
      rw [← Except.error.inj h]
      exact postLine_error_msg d jl.line e hs
    | ok d1 =>
      rw [hs, exceptOk_bind] at h
      exact ih d1 msg h

/-- Full case analysis of `JournalEntryModel.post`: missing entry, already
posted, successful post of an unposted entry, or a `TypeError` from a
missing account in the line loop. -/
theorem post_spec (db : DB) (id : String) :
    (db.journalEntries.find? (fun e => e.id == id) = none ∧
      JournalEntryModel.post db id = .error "Journal entry not found")
  ∨ (∃ e, db.journalEntries.find? (fun e2 => e2.id == id) = some e ∧ e.isPosted = true ∧
      JournalEntryModel.post db id = .error "Entry already posted")
  ∨ (∃ e, db.journalEntries.find? (fun e2 => e2.id == id) = some e ∧ e.isPosted = false ∧
      ((∃ d1, (entryJoinedLines db id).foldlM (fun x jl => postLine x jl.line) db = .ok d1 ∧
          JournalEntryModel.post db id = .ok (markPosted d1 id))
        ∨ JournalEntryModel.post db id = .error "TypeError: account is undefined")) := by
  unfold JournalEntryModel.post JournalEntryModel.findById
  cases he : db.journalEntries.find? (fun e => e.id == id) with
  | none =>
    left
    exact ⟨rfl, rfl⟩
  | some e0 =>
    simp only [Option.map_some']
    cases hp : e0.isPosted with
    | true =>
      right
      left
      rw [if_pos rfl]
      exact ⟨e0, rfl, hp, rfl⟩
    | false =>
      right
      right
      rw [if_neg Bool.false_ne_true]
      refine ⟨e0, rfl, hp, ?_⟩
      cases hf : (entryJoinedLines db id).foldlM (fun x jl => postLine x jl.line) db with
      | ok d1 =>
        left
        exact ⟨d1, rfl, rfl⟩
      | error msg =>
        right
        rw [← postLines_error (entryJoinedLines db id) db msg hf]
        rfl

theorem postLines_journalEntries (ls : List JoinedLine) (d d2 : DB)
    (h : ls.foldlM (fun x jl => postLine x jl.line) d = .ok d2) :
    d2.journalEntries = d.journalEntries :=
  foldlM_ok_preserves (fun x => x.journalEntries) (fun x jl => postLine x jl.line)
    (fun d3 x d4 hh => postLine_journalEntries d3 x.line d4 hh) ls d d2 h

theorem markPosted_find? (db d1 : DB) (id : String) (e : JournalEntryRow)
    (hJE : d1.journalEntries = db.journalEntries)
    (hsome : db.journalEntries.find? (fun e2 => e2.id == id) = some e) :
    (markPosted d1 id).journalEntries.find? (fun e2 => e2.id == id) =
      some { e with isPosted := true } := by
  show (d1.journalEntries.map (fun e2 => if e2.id == id then { e2 with isPosted := true }
      else e2)).find? (fun e2 => e2.id == id) = some { e with isPosted := true }
  rw [hJE, find?_map_update (fun e2 : JournalEntryRow => e2.id == id)
      (fun e2 => { e2 with isPosted := true }) (fun x => rfl) db.journalEntries, hsome,
    Option.map_some']

theorem post_markPosted (d1 : DB) (id : String) (e : JournalEntryRow)
    (hfind2 : (markPosted d1 id).journalEntries.find? (fun e2 => e2.id == id) =
      some { e with isPosted := true }) :
    JournalEntryModel.post (markPosted d1 id) id = .error "Entry already posted" := by
  rcases post_spec (markPosted d1 id) id with ⟨hn2, _⟩ | ⟨e2, hs2, hp2, herr2⟩ |
    ⟨e2, hs2, hu2, _⟩
  · rw [hn2] at hfind2
    exact Option.noConfusion hfind2
  · exact herr2
  · have he2 : e2 = { e with isPosted := true } := Option.some.inj (hs2.symm.trans hfind2)
    rw [he2] at hu2
    exact Bool.noConfusion hu2

/-- C5: `post` throws `Journal entry not found` exactly when no entry has
the id, throws `Entry already posted` exactly when the entry is posted (for
an existing entry), a successful post leaves the entry marked posted so a
second `post` of the same id throws `Entry already posted`, and a failed
(thrown) post leaves every account balance unchanged after rollback. -/
theorem C5_post_error_spec (db : DB) (id : String) :
    (JournalEntryModel.post db id = .error "Journal entry not found" ↔
      db.journalEntries.find? (fun e => e.id == id) = none)
  ∧ (∀ e, db.journalEntries.find? (fun e2 => e2.id == id) = some e →
      (JournalEntryModel.post db id = .error "Entry already posted" ↔ e.isPosted = true))
  ∧ (∀ db2, JournalEntryModel.post db id = .ok db2 →
      (db2.journalEntries.find? (fun e => e.id == id)).map (fun e => e.isPosted) = some true)
  ∧ (∀ db2, JournalEntryModel.post db id = .ok db2 →
      JournalEntryModel.post db2 id = .error "Entry already posted")
  ∧ (∀ msg, JournalEntryModel.post db id = .error msg →
      (runTransaction db (JournalEntryModel.post db id)).accounts = db.accounts) := by
  refine ⟨?_, ?_, ?_, ?_, ?_⟩
  · rcases post_spec db id with ⟨hnone, herr⟩ | ⟨e, hsome, hpost, herr⟩ |
      ⟨e, hsome, hunpost, ⟨d1, hfold, hok⟩ | herr⟩
    · exact ⟨fun _ => hnone, fun _ => herr⟩
    · constructor
      · intro h
        rw [herr] at h
        exact absurd (Except.error.inj h) (by decide)
      · intro hn
        rw [hsome] at hn
        exact Option.noConfusion hn
    · constructor
      · intro h
        rw [hok] at h
        exact Except.noConfusion h
      · intro hn
        rw [hsome] at hn
        exact Option.noConfusion hn
    · constructor
      · intro h
        rw [herr] at h
        exact absurd (Except.error.inj h) (by decide)
      · intro hn
        rw [hsome] at hn
        exact Option.noConfusion hn
  · intro e2 he2
    rcases post_spec db id with ⟨hnone, herr⟩ | ⟨e, hsome, hpost, herr⟩ |
      ⟨e, hsome, hunpost, ⟨d1, hfold, hok⟩ | herr⟩
    · rw [hnone] at he2
      exact Option.noConfusion he2
    · obtain rfl : e = e2 := Option.some.inj (hsome.symm.trans he2)
      exact ⟨fun _ => hpost, fun _ => herr⟩
    · obtain rfl : e = e2 := Option.some.inj (hsome.symm.trans he2)
      constructor
      · intro h
        rw [hok] at h
        exact Except.noConfusion h
      · intro h
        rw [h] at hunpost
        exact Bool.noConfusion hunpost
    · obtain rfl : e = e2 := Option.some.inj (hsome.symm.trans he2)
      constructor
      · intro h
        rw [herr] at h
        exact absurd (Except.error.inj h) (by decide)
      · intro h
        rw [h] at hunpost
        exact Bool.noConfusion hunpost
  · intro db2 h
    rcases post_spec db id with ⟨hnone, herr⟩ | ⟨e, hsome, hpost, herr⟩ |
      ⟨e, hsome, hunpost, ⟨d1, hfold, hok⟩ | herr⟩
    · rw [herr] at h
      exact Except.noConfusion h
    · rw [herr] at h
      exact Except.noConfusion h
    · rw [hok] at h
      cases h
      rw [markPosted_find? db d1 id e (postLines_journalEntries _ _ _ hfold) hsome,
        Option.map_some']
    · rw [herr] at h
      exact Except.noConfusion h
  · intro db2 h
    rcases post_spec db id with ⟨hnone, herr⟩ | ⟨e, hsome, hpost, herr⟩ |
      ⟨e, hsome, hunpost, ⟨d1, hfold, hok⟩ | herr⟩
    · rw [herr] at h
      exact Except.noConfusion h
    · rw [herr] at h
      exact Except.noConfusion h
    · rw [hok] at h
      cases h
      exact post_markPosted d1 id e
        (markPosted_find? db d1 id e (postLines_journalEntries _ _ _ hfold) hsome)
    · rw [herr] at h
      exact Except.noConfusion h
  · intro msg h
    rw [h]
    rfl

/-- Witness for C5: posting a missing id fails with `Journal entry not
found`; posting the concrete entry a second time fails with
`Entry already posted`. -/
theorem C5_post_error_spec_witness :
    JournalEntryModel.post exDB "nope" = .error "Journal entry not found"
  ∧ JournalEntryModel.post exPostedDB "je1" = .error "Entry already posted" :=
  ⟨(C5_post_error_spec exDB "nope").1.mpr (by with_unfolding_all decide),
   (C5_post_error_spec exPostDB "je1").2.2.2.1 exPostedDB (by with_unfolding_all decide)⟩

theorem balSum_cons (p : String → Bool) (a : Account) (t : List Account) :
    balSum p (a :: t) = (if p a.accountType then a.currentBalance else 0) + balSum p t := rfl

theorem accountShape_update (aid : String) (amt : ℚ) (l : List Account) :
    accountShape (l.map (fun a => if a.id == aid then
      { a with currentBalance := a.currentBalance + amt } else a)) = accountShape l := by
  unfold accountShape
  rw [List.map_map]
  apply List.map_congr_left
  intro a _
  by_cases h : (a.id == aid) = true
  · simp [Function.comp, h]
  · simp [Function.comp, h]

theorem ids_of_shape (l l2 : List Account) (h : accountShape l2 = accountShape l) :
    l2.map (fun a => a.id) = l.map (fun a => a.id) := by
  have h2 := congrArg (List.map Prod.fst) h
  simpa [accountShape, List.map_map, Function.comp] using h2

theorem mem_of_shape (l l2 : List Account) (h : accountShape l2 = accountShape l)
    (a0 : Account) (ha0 : a0 ∈ l) :
    ∃ a1 ∈ l2, a1.id = a0.id ∧ a1.accountType = a0.accountType := by
  have hm : (a0.id, a0.accountType) ∈ accountShape l2 := by
    rw [h]
    exact List.mem_map_of_mem _ ha0
  rcases List.mem_map.mp hm with ⟨a1, ha1, hpair⟩
  exact ⟨a1, ha1, congrArg Prod.fst hpair, congrArg Prod.snd hpair⟩

theorem find?_id_of_nodup (l : List Account) (hnd : (l.map (fun a => a.id)).Nodup)
    (a1 : Account) (ha1 : a1 ∈ l) :
    l.find? (fun a => a.id == a1.id) = some a1 := by
  induction l with
  | nil => cases ha1
  | cons a t ih =>
    rw [List.map_cons, List.nodup_cons] at hnd
    rcases List.mem_cons.mp ha1 with rfl | hmem
    · rw [List.find?_cons_of_pos _ (by simp)]
    · have hne : (a.id == a1.id) = false := by
        rw [beq_eq_false_iff_ne]
        intro hcontra
        apply hnd.1
        rw [hcontra]
        exact List.mem_map_of_mem _ hmem
      rw [List.find?_cons_of_neg _ (by simp [hne])]
      exact ih hnd.2 hmem

theorem balSum_update (p : String → Bool) (aid : String) (amt : ℚ) :
    ∀ (l : List Account), (l.map (fun a => a.id)).Nodup →
    ∀ a1, a1 ∈ l → a1.id = aid →
    balSum p (l.map (fun a => if a.id == aid then
      { a with currentBalance := a.currentBalance + amt } else a)) =
      balSum p l + (if p a1.accountType then amt else 0) := by
  intro l
  induction l with
  | nil =>
    intro _ a1 ha1
    cases ha1
  | cons a t ih =>
    intro hnd a1 ha1 hid
    rw [List.map_cons, List.nodup_cons] at hnd
    rcases List.mem_cons.mp ha1 with rfl | hmem
    · rw [List.map_cons, if_pos (by simp [hid])]
      have htail : t.map (fun b => if b.id == aid then
          { b with currentBalance := b.currentBalance + amt } else b) = t := by
        have hpoint : ∀ b ∈ t, (if b.id == aid then
            { b with currentBalance := b.currentBalance + amt } else b) = b := by
          intro b hb
          rw [if_neg]
          intro hx
          apply hnd.1
          rw [hid, ← show b.id = aid by simpa using hx]
          exact List.mem_map_of_mem _ hb
        exact (List.map_congr_left hpoint).trans (List.map_id' t)
      rw [htail, balSum_cons, balSum_cons]
      show (if p a1.accountType then a1.currentBalance + amt else 0) + balSum p t =
        ((if p a1.accountType then a1.currentBalance else 0) + balSum p t) +
          (if p a1.accountType then amt else 0)
      by_cases hp : p a1.accountType = true
      · rw [if_pos hp, if_pos hp, if_pos hp]
        ring
      · rw [if_neg hp, if_neg hp, if_neg hp]
        ring
    · have hane : (a.id == aid) = false := by
        rw [beq_eq_false_iff_ne]
        intro hcontra
        apply hnd.1
        rw [hcontra, ← hid]
        exact List.mem_map_of_mem _ hmem
      rw [List.map_cons, if_neg (by simp [hane]), balSum_cons, balSum_cons,
        ih hnd.2 a1 hmem hid]
      ring

theorem postLine_spec (db : DB) (hnd : (db.accounts.map (fun a => a.id)).Nodup)
    (htypes : ∀ a ∈ db.accounts,
      isDebitNormal a.accountType = true ∨ isCreditNormal a.accountType = true)
    (d : DB) (hshape : accountShape d.accounts = accountShape db.accounts)
    (jl : JournalLineRow) (a0 : Account) (ha0 : a0 ∈ db.accounts)
    (hid : a0.id = jl.accountId) :
    ∃ d2, postLine d jl = .ok d2 ∧ accountShape d2.accounts = accountShape db.accounts ∧
      balSum isDebitNormal d2.accounts - balSum isCreditNormal d2.accounts =
        balSum isDebitNormal d.accounts - balSum isCreditNormal d.accounts +
          (jl.debit - jl.credit) := by
  rcases mem_of_shape db.accounts d.accounts hshape a0 ha0 with ⟨a1, ha1, hid1, hty1⟩
  have hnd2 : (d.accounts.map (fun a => a.id)).Nodup := by
    rw [ids_of_shape db.accounts d.accounts hshape]
    exact hnd
  have hfind : d.accounts.find? (fun a => a.id == jl.accountId) = some a1 := by
    have hf2 := find?_id_of_nodup d.accounts hnd2 a1 ha1
    rw [show a1.id = jl.accountId from hid1.trans hid] at hf2
    exact hf2
  have htype : accountTypeOf d jl.accountId = some a1.accountType := by
    unfold accountTypeOf
    rw [hfind, Option.map_some']
  refine ⟨updateBalance d jl.accountId (if isDebitNormal a1.accountType
      then jl.debit - jl.credit else jl.credit - jl.debit), ?_, ?_, ?_⟩
  · unfold postLine
    rw [htype]
  · show accountShape (d.accounts.map (fun a => if a.id == jl.accountId then
      { a with currentBalance := a.currentBalance + (if isDebitNormal a1.accountType
        then jl.debit - jl.credit else jl.credit - jl.debit) } else a)) =
      accountShape db.accounts
    rw [accountShape_update]
    exact hshape
  · have hid2 : a1.id = jl.accountId := hid1.trans hid
    have hD := balSum_update isDebitNormal jl.accountId
      (if isDebitNormal a1.accountType then jl.debit - jl.credit else jl.credit - jl.debit)
      d.accounts hnd2 a1 ha1 hid2
    have hC := balSum_update isCreditNormal jl.accountId
      (if isDebitNormal a1.accountType then jl.debit - jl.credit else jl.credit - jl.debit)
      d.accounts hnd2 a1 ha1 hid2
    show balSum isDebitNormal (d.accounts.map (fun a => if a.id == jl.accountId then
        { a with currentBalance := a.currentBalance + (if isDebitNormal a1.accountType
          then jl.debit - jl.credit else jl.credit - jl.debit) } else a)) -
      balSum isCreditNormal (d.accounts.map (fun a => if a.id == jl.accountId then
        { a with currentBalance := a.currentBalance + (if isDebitNormal a1.accountType
          then jl.debit - jl.credit else jl.credit - jl.debit) } else a)) =
      balSum isDebitNormal d.accounts - balSum isCreditNormal d.accounts +
        (jl.debit - jl.credit)
    rw [hD, hC]
    by_cases hdn : isDebitNormal a1.accountType = true
    · have hcn : isCreditNormal a1.accountType = false :=
        debitNormal_not_creditNormal _ hdn
      have hcn2 : ¬ (isCreditNormal a1.accountType = true) := by
        simp [hcn]
      rw [if_pos hdn, if_neg hcn2]
      rw [if_pos hdn]
      ring
    · have hcn : isCreditNormal a1.accountType = true := by
        rcases htypes a0 ha0 with hd0 | hc0
        · rw [← hty1] at hd0
          exact absurd hd0 hdn
        · rw [← hty1] at hc0
          exact hc0
      rw [if_neg hdn, if_pos hcn]
      rw [if_neg hdn]
      ring

theorem postLines_spec (db : DB) (hnd : (db.accounts.map (fun a => a.id)).Nodup)
    (htypes : ∀ a ∈ db.accounts,
      isDebitNormal a.accountType = true ∨ isCreditNormal a.accountType = true) :
    ∀ (ls : List JoinedLine),
    (∀ jl ∈ ls, ∃ a ∈ db.accounts, a.id = jl.line.accountId) →
    ∀ d, accountShape d.accounts = accountShape db.accounts →
    ∃ d2, ls.foldlM (fun x jl => postLine x jl.line) d = .ok d2 ∧
      accountShape d2.accounts = accountShape db.accounts ∧
      balSum isDebitNormal d2.accounts - balSum isCreditNormal d2.accounts =
        balSum isDebitNormal d.accounts - balSum isCreditNormal d.accounts +
          (joinedDebitTotal ls - joinedCreditTotal ls) := by
  intro ls
  induction ls with
  | nil =>
    intro _ d hshape
    refine ⟨d, by rw [List.foldlM_nil]; rfl, hshape, ?_⟩
    simp [joinedDebitTotal, joinedCreditTotal]
  | cons jl t ih =>
    intro hmem d hshape
    rcases hmem jl (List.mem_cons_self jl t) with ⟨a0, ha0, hid⟩
    rcases postLine_spec db hnd htypes d hshape jl.line a0 ha0 hid with
      ⟨d1, hstep, hshape1, hbal1⟩
    rcases ih (fun x hx => hmem x (List.mem_cons_of_mem _ hx)) d1 hshape1 with
      ⟨d2, hfold, hshape2, hbal2⟩
    refine ⟨d2, ?_, hshape2, ?_⟩
    · rw [List.foldlM_cons, hstep, exceptOk_bind]
      exact hfold
    · rw [hbal2, hbal1]
      simp only [joinedDebitTotal, joinedCreditTotal, List.map_cons, List.sum_cons]
      ring

theorem mem_entryJoinedLines (db : DB) (id : String) (jl : JoinedLine)
    (h : jl ∈ entryJoinedLines db id) : ∃ a ∈ db.accounts, a.id = jl.line.accountId := by
  unfold entryJoinedLines at h
  rcases List.mem_flatten.mp h with ⟨sub, hsub, hjl⟩
  rcases List.mem_map.mp hsub with ⟨l, hl, rfl⟩
  rcases List.mem_map.mp hjl with ⟨a, ha, rfl⟩
  have hfa := List.mem_filter.mp ha
  exact ⟨a, hfa.1, by simpa using hfa.2⟩

/-- C2: posting a journal entry whose lines (as loaded by `findById`) have
equal total debits and credits changes the combined asset/expense balance
total by exactly the amount it changes the combined
liability/equity/income balance total — the balance-sheet equation is
preserved.  Hypotheses: account ids are unique (primary key) and every
account type satisfies the schema CHECK constraint. -/
theorem C2_post_preserves_balance_equation (db : DB) (id : String) (db2 : DB)
    (hnd : (db.accounts.map (fun a => a.id)).Nodup)
    (htypes : ∀ a ∈ db.accounts,
      isDebitNormal a.accountType = true ∨ isCreditNormal a.accountType = true)
    (hpost : JournalEntryModel.post db id = .ok db2)
    (hbal : joinedDebitTotal (entryJoinedLines db id) =
      joinedCreditTotal (entryJoinedLines db id)) :
    balanceTotal isDebitNormal db2 - balanceTotal isDebitNormal db =
      balanceTotal isCreditNormal db2 - balanceTotal isCreditNormal db := by
  rcases post_spec db id with ⟨_, herr⟩ | ⟨e, _, _, herr⟩ |
    ⟨e, hsome, hunpost, ⟨d1, hfold, hok⟩ | herr⟩
  · rw [herr] at hpost
    exact Except.noConfusion hpost
  · rw [herr] at hpost
    exact Except.noConfusion hpost
  · rw [hok] at hpost
    cases hpost
    rcases postLines_spec db hnd htypes (entryJoinedLines db id)
        (fun jl hjl => mem_entryJoinedLines db id jl hjl) db rfl with
      ⟨d1x, hfold2, hshape2, hbal2⟩
    have hd1 : d1x = d1 := Except.ok.inj (hfold2.symm.trans hfold)
    subst hd1
    rw [hbal] at hbal2
    unfold balanceTotal
    show balSum isDebitNormal d1x.accounts - balSum isDebitNormal db.accounts =
      balSum isCreditNormal d1x.accounts - balSum isCreditNormal db.accounts
    linarith [hbal2]
  · rw [herr] at hpost
    exact Except.noConfusion hpost

/-- Witness for C2: posting the concrete balanced cash-sale entry moves the
asset total and the income total by the same amount (20). -/
theorem C2_post_preserves_balance_equation_witness :
    balanceTotal isDebitNormal exPostedDB - balanceTotal isDebitNormal exPostDB =
      balanceTotal isCreditNormal exPostedDB - balanceTotal isCreditNormal exPostDB :=
  C2_post_preserves_balance_equation exPostDB "je1" exPostedDB
    (by with_unfolding_all decide) (by with_unfolding_all decide)
    (by with_unfolding_all decide) (by with_unfolding_all decide)
